import Mathlib

/-
  Shallow embedding of src/oki.py (Live Keystroke Printer for Okidata).
  Byte sequences are lists of naturals (each < 256 on every path exercised);
  a transmission is one byte buffer handed to the TCP transport; handlers
  return the ordered list of transmissions they perform.
-/

namespace Okidata

/-- UTF-8 encoding of one character by code-point range, modelling
Python str.encode applied per character. -/
def utf8Char (c : Char) : List Nat :=
  let n := c.toNat
  if n < 0x80 then [n]
  else if n < 0x800 then [0xC0 + n / 0x40, 0x80 + n % 0x40]
  else if n < 0x10000 then [0xE0 + n / 0x1000, 0x80 + n / 0x40 % 0x40, 0x80 + n % 0x40]
  else [0xF0 + n / 0x40000, 0x80 + n / 0x1000 % 0x40, 0x80 + n / 0x40 % 0x40, 0x80 + n % 0x40]

/-- UTF-8 encoding of a string, modelling Python line_text.encode applied in
handle_return. -/
def utf8Encode (s : String) : List Nat := (s.data.map utf8Char).flatten

/-- Encoder stored under the key Set Spacing to n/144: ESC 0x25 0x39 then the
parameter byte (the source calls bytes with 0 <= n <= 255). -/
def setSpacingN144 (n : Nat) : List Nat := [0x1B, 0x25, 0x39, n]

/-- Encoder stored under the key Skip Over Perforation: parameter 0 yields the
fixed disable sequence, any other parameter the general parametric sequence
with the parameter byte repeated twice. -/
def skipOverPerforation (n : Nat) : List Nat :=
  if n = 0 then [0x1B, 0x25, 0x53, 0x30] else [0x1B, 0x47, n, n]

/-- A registry entry is either a fixed byte sequence or a one-parameter
encoder, mirroring the mixed dictionary values in the source. -/
inductive OkiEntry where
  | fixed (bs : List Nat)
  | param (encode : Nat → List Nat)

/-- The OKIDATA_COMMANDS dictionary of src/oki.py, transcribed entry by
entry. -/
def OKIDATA_COMMANDS : String → Option OkiEntry
  | "Backspace" => some (.fixed [0x08])
  | "Carriage Return" => some (.fixed [0x0D])
  | "Select 10 cpi" => some (.fixed [0x1E])
  | "Select 12 cpi" => some (.fixed [0x1C])
  | "Select 15 cpi" => some (.fixed [0x1B, 0x67])
  | "Select 17.1 cpi" => some (.fixed [0x1D])
  | "Select 20 cpi" => some (.fixed [0x1B, 0x23, 0x33])
  | "Standard Character Set" => some (.fixed [0x1B, 0x21, 0x30])
  | "Block Graphic Set" => some (.fixed [0x1B, 0x21, 0x31])
  | "Publisher Set" => some (.fixed [0x1B, 0x21, 0x5A])
  | "Line Graphics Set" => some (.fixed [0x1B, 0x21, 0x32])
  | "Select Utility" => some (.fixed [0x1B, 0x30])
  | "Slashed Zero" => some (.fixed [0x1B, 0x21, 0x40])
  | "Unslashed Zero" => some (.fixed [0x1B, 0x21, 0x41])
  | "Double Height On" => some (.fixed [0x1B, 0x1F, 0x31])
  | "Double Height Off" => some (.fixed [0x1B, 0x1F, 0x30])
  | "Double Width On" => some (.fixed [0x1F])
  | "Double Width Off" => some (.fixed [0x1B, 0x21, 0x30])
  | "Emphasized Printing On" => some (.fixed [0x1B, 0x54])
  | "Emphasized Printing Off" => some (.fixed [0x1B, 0x49])
  | "Enhanced Printing On" => some (.fixed [0x1B, 0x48])
  | "Enhanced Printing Off" => some (.fixed [0x1B, 0x49])
  | "Underline Printing On" => some (.fixed [0x1B, 0x2D, 0x01])
  | "Underline Printing Off" => some (.fixed [0x1B, 0x2D, 0x00])
  | "Unidirectional Printing On" => some (.fixed [0x1B, 0x2D, 0x02])
  | "Unidirectional Printing Off" => some (.fixed [0x1B, 0x2D, 0x00])
  | "Form Feed" => some (.fixed [0x0C])
  | "Horizontal Tab" => some (.fixed [0x09])
  | "Vertical Tab" => some (.fixed [0x0B])
  | "Line Feed" => some (.fixed [0x0A])
  | "Line Feed w/o CR" => some (.fixed [0x1B, 0x12])
  | "Reverse Line Feed" => some (.fixed [0x1B, 0x0A])
  | "Set Spacing to 1/6\"" => some (.fixed [0x1B, 0x36])
  | "Set Spacing to 1/8\"" => some (.fixed [0x1B, 0x38])
  | "Set Spacing to n/144" => some (.param setSpacingN144)
  | "Print Quality Select HSD/SSD" => some (.fixed [0x1B, 0x23, 0x30])
  | "Select NLQ Courier" => some (.fixed [0x1B, 0x31])
  | "Select NLQ Gothic" => some (.fixed [0x1B, 0x33])
  | "Print Speed Set to Full" => some (.fixed [0x1B, 0x3E])
  | "Print Speed Set to Half" => some (.fixed [0x1B, 0x3C])
  | "Proportional Printing On" => some (.fixed [0x1B, 0x59])
  | "Proportional Printing Off" => some (.fixed [0x1B, 0x5A])
  | "Reset (Clear Print Buffer)" => some (.fixed [0x18])
  | "Skip Over Perforation" => some (.param skipOverPerforation)
  | "Shift In" => some (.fixed [0x0F])
  | "Shift Out" => some (.fixed [0x0E])
  | _ => none

/-- Models OKIDATA_COMMANDS.get with default empty bytes, at the fixed-entry
names the handlers look up (the two parametric names are fetched through their
own code paths in the source). -/
def okidataGetBytes (name : String) : List Nat :=
  match OKIDATA_COMMANDS name with
  | some (.fixed bs) => bs
  | _ => []

/-- Models send_manual_command: a dictionary get with empty default, sent only
when truthy. Result is some list of transmissions; none marks the path where
the fetched value is an encoder function, which the send machinery could not
iterate as bytes (that path is unreachable from the manual-command buttons). -/
def send_manual_command (cmd_name : String) : Option (List (List Nat)) :=
  match OKIDATA_COMMANDS cmd_name with
  | none => some []
  | some (.fixed bs) => some (if bs = [] then [] else [bs])
  | some (.param _) => none

/-- The tkinter variables of LiveKeystrokeEditor that the core handlers read,
plus the text of the line holding the insertion cursor (the cursor sits at the
end of the last line, the typing position) and the lines above it. -/
structure EditorState where
  debug_mode : Bool
  cpi_var : String
  font_var : String
  spacing_var : String
  spacing_n : Nat
  quality_var : String
  speed_var : String
  double_height : Bool
  proportional : Bool
  double_wide : Bool
  underline_printing : Bool
  unidirectional : Bool
  skip_perforation : Nat
  left_margin_count : Nat
  mode_var : String
  textAbove : List String
  currentLine : String
deriving DecidableEq

/-- The initial variable values set in LiveKeystrokeEditor, from
DEFAULT_CONFIG and the constructor. -/
def defaultState : EditorState where
  debug_mode := true
  cpi_var := "10 cpi"
  font_var := "Block Graphic Set"
  spacing_var := "1/6"
  spacing_n := 9
  quality_var := "HSD/SSD"
  speed_var := "Full"
  double_height := false
  proportional := false
  double_wide := false
  underline_printing := false
  unidirectional := false
  skip_perforation := 0
  left_margin_count := 0
  mode_var := "Line-by-Line"
  textAbove := []
  currentLine := ""

/-- Models apply_font: the chain over font_var, sent only when nonempty. -/
def apply_font (s : EditorState) : List (List Nat) :=
  let command :=
    if s.font_var = "Block Graphic Set" then okidataGetBytes "Block Graphic Set"
    else if s.font_var = "Publisher Set" then okidataGetBytes "Publisher Set"
    else if s.font_var = "Line Graphics Set" then okidataGetBytes "Line Graphics Set"
    else if s.font_var = "Standard Character Set" then okidataGetBytes "Standard Character Set"
    else []
  if command = [] then [] else [command]

/-- Models apply_cpi: looks up Select followed by the cpi_var text unless that
text is Double Wide, sent only when nonempty. -/
def apply_cpi (s : EditorState) : List (List Nat) :=
  if s.cpi_var ≠ "Double Wide" then
    let command := okidataGetBytes ("Select " ++ s.cpi_var)
    if command = [] then [] else [command]
  else []

/-- Models apply_spacing: the chain over spacing_var, with the n/144 arm
calling the parametric encoder on spacing_n. -/
def apply_spacing (s : EditorState) : List (List Nat) :=
  let command :=
    if s.spacing_var = "1/6" then okidataGetBytes "Set Spacing to 1/6\""
    else if s.spacing_var = "1/8" then okidataGetBytes "Set Spacing to 1/8\""
    else if s.spacing_var = "n/144" then setSpacingN144 s.spacing_n
    else []
  if command = [] then [] else [command]

/-- Models apply_quality: the chain over quality_var. -/
def apply_quality (s : EditorState) : List (List Nat) :=
  let command :=
    if s.quality_var = "HSD/SSD" then okidataGetBytes "Print Quality Select HSD/SSD"
    else if s.quality_var = "NLQ Courier" then okidataGetBytes "Select NLQ Courier"
    else if s.quality_var = "NLQ Gothic" then okidataGetBytes "Select NLQ Gothic"
    else if s.quality_var = "Utility" then okidataGetBytes "Select Utility"
    else []
  if command = [] then [] else [command]

/-- Models apply_speed: the chain over speed_var. -/
def apply_speed (s : EditorState) : List (List Nat) :=
  let command :=
    if s.speed_var = "Full" then okidataGetBytes "Print Speed Set to Full"
    else if s.speed_var = "Half" then okidataGetBytes "Print Speed Set to Half"
    else []
  if command = [] then [] else [command]

/-- Models apply_double_height: on or off command from the stored toggle. -/
def apply_double_height (s : EditorState) : List (List Nat) :=
  let command :=
    if s.double_height then okidataGetBytes "Double Height On"
    else okidataGetBytes "Double Height Off"
  if command = [] then [] else [command]

/-- Models apply_proportional: on or off command from the stored toggle. -/
def apply_proportional (s : EditorState) : List (List Nat) :=
  let command :=
    if s.proportional then okidataGetBytes "Proportional Printing On"
    else okidataGetBytes "Proportional Printing Off"
  if command = [] then [] else [command]

/-- Models apply_skip_over_perforation: encodes the spinbox value and sends it
unconditionally. -/
def apply_skip_over_perforation (s : EditorState) : List (List Nat) :=
  [skipOverPerforation s.skip_perforation]

/-- Models apply_underline: on or off command from the stored toggle. -/
def apply_underline (s : EditorState) : List (List Nat) :=
  let command :=
    if s.underline_printing then okidataGetBytes "Underline Printing On"
    else okidataGetBytes "Underline Printing Off"
  if command = [] then [] else [command]

/-- Models apply_unidirectional: on or off command from the stored toggle. -/
def apply_unidirectional (s : EditorState) : List (List Nat) :=
  let command :=
    if s.unidirectional then okidataGetBytes "Unidirectional Printing On"
    else okidataGetBytes "Unidirectional Printing Off"
  if command = [] then [] else [command]

/-- Models toggle_double_wide: the checkbox has already flipped double_wide
when the handler runs; enabled sends the Double Width On entry, disabled runs
apply_cpi instead. -/
def toggle_double_wide (s : EditorState) : List (List Nat) :=
  if s.double_wide then
    let command := okidataGetBytes "Double Width On"
    if command = [] then [] else [command]
  else apply_cpi s

/-- Models restore_defaults: one transmission concatenating the reset command,
the Select entry for the stored cpi_var and the skip-perforation encoding of
the stored spinbox value (assuming the port field parses, otherwise the method
returns before building the buffer). -/
def restore_defaults (s : EditorState) : List (List Nat) :=
  [okidataGetBytes "Reset (Clear Print Buffer)"
    ++ okidataGetBytes ("Select " ++ s.cpi_var)
    ++ skipOverPerforation s.skip_perforation]

/-- Models send_all_defaults: restore_defaults then the eight apply handlers
in source order; none of them writes any stored variable, so the state is
returned unchanged. -/
def send_all_defaults (s : EditorState) : EditorState × List (List Nat) :=
  (s, restore_defaults s ++ apply_font s ++ apply_cpi s ++ apply_spacing s
    ++ apply_quality s ++ apply_speed s ++ apply_double_height s
    ++ apply_proportional s ++ apply_skip_over_perforation s)

/-- Models send_left_margin: one Horizontal Tab transmission per unit of the
left-margin spinbox value. -/
def send_left_margin (s : EditorState) : List (List Nat) :=
  List.replicate s.left_margin_count (okidataGetBytes "Horizontal Tab")

/-- One step of a Return commit: the millisecond offset passed to the timer
and the transmissions performed when it fires. -/
structure ScheduledStep where
  offsetMs : Nat
  sends : List (List Nat)
deriving DecidableEq

/-- Models handle_return: in Line-by-Line mode the current line is captured,
CR fires at once, LF after 10 ms, the margin burst after 20 ms and the
captured text after 30 ms, then a newline is inserted into the text widget;
in Live mode only CR, LF and the margin burst are scheduled and the buffer is
left to the widget. -/
def handle_return (s : EditorState) : EditorState × List ScheduledStep :=
  if s.mode_var = "Line-by-Line" then
    let line_text := s.currentLine
    ({ s with textAbove := s.textAbove ++ [s.currentLine], currentLine := "" },
      [⟨0, [okidataGetBytes "Carriage Return"]⟩,
       ⟨10, [okidataGetBytes "Line Feed"]⟩,
       ⟨20, send_left_margin s⟩,
       ⟨30, [utf8Encode line_text]⟩])
  else
    (s, [⟨0, [okidataGetBytes "Carriage Return"]⟩,
         ⟨10, [okidataGetBytes "Line Feed"]⟩,
         ⟨20, send_left_margin s⟩])

/-- The three background colors of the line-length display, read as the
margin-feasibility classes of the spec. -/
inductive Feasibility where
  | OK
  | WARN
  | OVER
deriving DecidableEq

/-- The projected line length together with its feasibility class. -/
structure LineLengthResult where
  lengthInches : ℚ
  feasibility : Feasibility
deriving DecidableEq

/-- Models update_line_length_display as a pure function. char_count is the
length of the current line; cpiParse is the outcome of parsing the leading
token of cpi_var as a number, none when that parse raises; rmParse likewise
for the right-margin field. The division raising on a zero cpi is caught and
yields length zero; the feasibility chain mirrors the color chain. -/
def update_line_length_display (char_count left_margin : Nat)
    (cpiParse : Option ℚ) (double_wide : Bool) (rmParse : Option ℚ) :
    LineLengthResult :=
  let numeric_cpi := cpiParse.getD 10
  let effective_cpi := if double_wide then numeric_cpi / 2 else numeric_cpi
  let line_length :=
    if numeric_cpi = 0 then 0
    else (8 * left_margin) / numeric_cpi + char_count / effective_cpi
  let right_margin := rmParse.getD (15 / 2)
  let gap := right_margin - line_length
  let feas : Feasibility :=
    if gap ≥ 1 / 2 then .OK else if 0 ≤ gap then .WARN else .OVER
  ⟨line_length, feas⟩

/-- Observable steps of one transmission attempt, in the order the source
performs them: the debug-panel log line, the invalid-port error box, the
successful socket write, or the transport-error log line. -/
inductive SendEvent where
  | debugLog (tag : String) (decimalBytes : String)
  | portError
  | connect (bs : List Nat)
  | transportError (tag : String)
deriving DecidableEq

/-- The space-separated decimal rendering of a byte buffer used by the debug
panel. -/
def dec_str (bs : List Nat) : String :=
  String.intercalate " " (bs.map toString)

/-- Models send_command_immediately: the debug line is appended first when
debug mode is on, then the port field is parsed (portParse is the outcome of
that parse, none when it raises), then a connection is attempted whose outcome
transportOk abstracts the socket call. -/
def send_command_immediately (debugMode : Bool) (portParse : Option Nat)
    (transportOk : Bool) (command_bytes : List Nat) (tag : String) :
    List SendEvent :=
  (if debugMode then [SendEvent.debugLog tag (dec_str command_bytes)] else [])
    ++ match portParse with
       | none => [SendEvent.portError]
       | some _ =>
         if transportOk then [SendEvent.connect command_bytes]
         else [SendEvent.transportError tag]

/-- Models send_live_command, the near-duplicate of send_command_immediately
with the fixed Live Keystroke tag. -/
def send_live_command (debugMode : Bool) (portParse : Option Nat)
    (transportOk : Bool) (command_bytes : List Nat) : List SendEvent :=
  (if debugMode then
     [SendEvent.debugLog "[Live Keystroke]" (dec_str command_bytes)]
   else [])
    ++ match portParse with
       | none => [SendEvent.portError]
       | some _ =>
         if transportOk then [SendEvent.connect command_bytes]
         else [SendEvent.transportError "[Live Keystroke]"]

/-- The five values the CPI radio buttons can store. -/
def cpiChoices : List String :=
  ["10 cpi", "12 cpi", "15 cpi", "17.1 cpi", "20 cpi"]

/-- The four values the character-set radio buttons can store; each is itself
a registry key. -/
def fontChoices : List String :=
  ["Block Graphic Set", "Publisher Set", "Line Graphics Set",
   "Standard Character Set"]

/-- The three values the spacing radio buttons can store. -/
def spacingChoices : List String := ["1/6", "1/8", "n/144"]

/-- The four values the print-quality radio buttons can store. -/
def qualityChoices : List String :=
  ["HSD/SSD", "NLQ Courier", "NLQ Gothic", "Utility"]

/-- The two values the speed radio buttons can store. -/
def speedChoices : List String := ["Full", "Half"]

/-- The registry bytes of the Select entry for a stored cpi_var value. -/
def selectCpiBytes (v : String) : List Nat :=
  okidataGetBytes ("Select " ++ v)

/-- The bytes the spacing handler resolves for a stored spacing_var value. -/
def spacingBytes (v : String) (n : Nat) : List Nat :=
  if v = "1/6" then okidataGetBytes "Set Spacing to 1/6\""
  else if v = "1/8" then okidataGetBytes "Set Spacing to 1/8\""
  else setSpacingN144 n

/-- The registry key the quality handler resolves for a stored value. -/
def qualityKey (v : String) : String :=
  if v = "HSD/SSD" then "Print Quality Select HSD/SSD"
  else if v = "NLQ Courier" then "Select NLQ Courier"
  else if v = "NLQ Gothic" then "Select NLQ Gothic"
  else "Select Utility"

/-- The registry key the speed handler resolves for a stored value. -/
def speedKey (v : String) : String :=
  if v = "Full" then "Print Speed Set to Full" else "Print Speed Set to Half"

/-- The registry key the double-height handler resolves from its toggle. -/
def dheightKey (b : Bool) : String :=
  if b then "Double Height On" else "Double Height Off"

/-- The registry key the proportional handler resolves from its toggle. -/
def propKey (b : Bool) : String :=
  if b then "Proportional Printing On" else "Proportional Printing Off"

/-- The line-length formula exactly as the spec words it. -/
def specLength (char_count left_margin : Nat) (numericCpi : ℚ)
    (double_wide : Bool) : ℚ :=
  (8 * left_margin) / numericCpi
    + char_count / (if double_wide then numericCpi / 2 else numericCpi)

/-- The feasibility classification exactly as the spec words it. -/
def specFeasibility (gap : ℚ) : Feasibility :=
  if gap ≥ 1 / 2 then .OK else if 0 ≤ gap then .WARN else .OVER

theorem okidataGetBytes_CR : okidataGetBytes "Carriage Return" = [0x0D] := rfl

theorem okidataGetBytes_LF : okidataGetBytes "Line Feed" = [0x0A] := rfl

theorem okidataGetBytes_HT : okidataGetBytes "Horizontal Tab" = [0x09] := rfl

theorem apply_cpi_of_mem (s : EditorState) (h : s.cpi_var ∈ cpiChoices) :
    apply_cpi s = [selectCpiBytes s.cpi_var] := by
  simp only [cpiChoices, List.mem_cons, List.not_mem_nil, or_false] at h
  rcases h with h | h | h | h | h <;> simp only [apply_cpi, selectCpiBytes, h] <;> decide

theorem apply_font_of_mem (s : EditorState) (h : s.font_var ∈ fontChoices) :
    apply_font s = [okidataGetBytes s.font_var] := by
  simp only [fontChoices, List.mem_cons, List.not_mem_nil, or_false] at h
  rcases h with h | h | h | h <;> simp only [apply_font, h] <;> decide

theorem apply_spacing_of_mem (s : EditorState)
    (h : s.spacing_var ∈ spacingChoices) :
    apply_spacing s = [spacingBytes s.spacing_var s.spacing_n] := by
  have e6 : okidataGetBytes "Set Spacing to 1/6\"" = [0x1B, 0x36] := rfl
  have e8 : okidataGetBytes "Set Spacing to 1/8\"" = [0x1B, 0x38] := rfl
  simp only [spacingChoices, List.mem_cons, List.not_mem_nil, or_false] at h
  rcases h with h | h | h <;>
    simp [apply_spacing, spacingBytes, setSpacingN144, h, e6, e8]

theorem apply_quality_of_mem (s : EditorState)
    (h : s.quality_var ∈ qualityChoices) :
    apply_quality s = [okidataGetBytes (qualityKey s.quality_var)] := by
  simp only [qualityChoices, List.mem_cons, List.not_mem_nil, or_false] at h
  rcases h with h | h | h | h <;> simp only [apply_quality, qualityKey, h] <;> decide

theorem apply_speed_of_mem (s : EditorState) (h : s.speed_var ∈ speedChoices) :
    apply_speed s = [okidataGetBytes (speedKey s.speed_var)] := by
  simp only [speedChoices, List.mem_cons, List.not_mem_nil, or_false] at h
  rcases h with h | h <;> simp only [apply_speed, speedKey, h] <;> decide

theorem apply_double_height_eq (s : EditorState) :
    apply_double_height s = [okidataGetBytes (dheightKey s.double_height)] := by
  cases h : s.double_height <;>
    simp only [apply_double_height, dheightKey, h] <;> decide

theorem apply_proportional_eq (s : EditorState) :
    apply_proportional s = [okidataGetBytes (propKey s.proportional)] := by
  cases h : s.proportional <;>
    simp only [apply_proportional, propKey, h] <;> decide

/-- C1: in committed-line mode a Return commit captures the full current line
before the newline enters the buffer and schedules exactly four steps at
offsets 0, 10, 20 and 30 ms: Carriage Return, Line Feed, a burst of one
Horizontal Tab transmission per unit of the left-margin setting, and the
captured line as one UTF-8 transmission. -/
theorem C1_commit_sequence (s : EditorState)
    (h : s.mode_var = "Line-by-Line") :
    handle_return s =
      ({ s with textAbove := s.textAbove ++ [s.currentLine],
                currentLine := "" },
       [⟨0, [[0x0D]]⟩, ⟨10, [[0x0A]]⟩,
        ⟨20, List.replicate s.left_margin_count [0x09]⟩,
        ⟨30, [utf8Encode s.currentLine]⟩]) := by
  simp [handle_return, h, send_left_margin, okidataGetBytes_CR,
    okidataGetBytes_LF, okidataGetBytes_HT]

/-- Witness for C1 at the example of the spec: committing HELLO with a left
margin of two tabs schedules CR, LF, two Horizontal Tabs and the five UTF-8
bytes of HELLO. -/
theorem C1_commit_sequence_witness :
    handle_return
        { defaultState with currentLine := "HELLO", left_margin_count := 2 } =
      ({ defaultState with currentLine := "", textAbove := ["HELLO"],
                           left_margin_count := 2 },
       [⟨0, [[13]]⟩, ⟨10, [[10]]⟩, ⟨20, [[9], [9]]⟩,
        ⟨30, [[72, 69, 76, 76, 79]]⟩]) := by
  have h := C1_commit_sequence
    { defaultState with currentLine := "HELLO", left_margin_count := 2 } rfl
  exact h.trans (by decide)

/-- C2 counterexample: at the initial settings the defaults sequence is not
the claimed seven transmissions (concatenated reset plus cpi plus skip, then
font, spacing, quality, speed, double-height, proportional); the source also
re-sends the CPI command after the font and the skip-perforation command at
the end. -/
theorem C2_restore_defaults_counterexample :
    (send_all_defaults defaultState).2 ≠
      [okidataGetBytes "Reset (Clear Print Buffer)" ++ selectCpiBytes "10 cpi"
         ++ skipOverPerforation 0,
       okidataGetBytes "Block Graphic Set",
       spacingBytes "1/6" 9,
       okidataGetBytes (qualityKey "HSD/SSD"),
       okidataGetBytes (speedKey "Full"),
       okidataGetBytes (dheightKey false),
       okidataGetBytes (propKey false)] := by decide

/-- C2 amended: the defaults sequence alters no stored value and transmits, in
this order, one concatenated reset-cpi-skip buffer and then separate font,
cpi, spacing, quality, speed, double-height, proportional and skip-perforation
commands from the currently stored settings, so the cpi and skip-perforation
codes each go out twice. -/
theorem C2_restore_defaults_amended (s : EditorState)
    (hc : s.cpi_var ∈ cpiChoices) (hf : s.font_var ∈ fontChoices)
    (hs : s.spacing_var ∈ spacingChoices) (hq : s.quality_var ∈ qualityChoices)
    (hv : s.speed_var ∈ speedChoices) :
    (send_all_defaults s).1 = s ∧
    (send_all_defaults s).2 =
      [okidataGetBytes "Reset (Clear Print Buffer)" ++ selectCpiBytes s.cpi_var
         ++ skipOverPerforation s.skip_perforation,
       okidataGetBytes s.font_var,
       selectCpiBytes s.cpi_var,
       spacingBytes s.spacing_var s.spacing_n,
       okidataGetBytes (qualityKey s.quality_var),
       okidataGetBytes (speedKey s.speed_var),
       okidataGetBytes (dheightKey s.double_height),
       okidataGetBytes (propKey s.proportional),
       skipOverPerforation s.skip_perforation] := by
  refine ⟨rfl, ?_⟩
  simp only [send_all_defaults, restore_defaults, apply_skip_over_perforation,
    apply_cpi_of_mem s hc, apply_font_of_mem s hf, apply_spacing_of_mem s hs,
    apply_quality_of_mem s hq, apply_speed_of_mem s hv,
    apply_double_height_eq s, apply_proportional_eq s, selectCpiBytes,
    List.cons_append, List.nil_append, List.singleton_append]

/-- Witness for C2 amended at the initial settings. -/
theorem C2_restore_defaults_witness :
    (send_all_defaults defaultState).1 = defaultState ∧
    (send_all_defaults defaultState).2 =
      [[24, 30, 27, 37, 83, 48], [27, 33, 49], [30], [27, 54], [27, 35, 48],
       [27, 62], [27, 31, 48], [27, 90], [27, 37, 83, 48]] :=
  have h := C2_restore_defaults_amended defaultState (by decide) (by decide)
    (by decide) (by decide) (by decide)
  ⟨h.1, h.2.trans (by decide)⟩

/-- C3: with a positive parsed cpi the display computes exactly the length
formula of the spec and classifies the margin gap as OK at half an inch or
more, WARN below half an inch, OVER when negative; at 80 double-wide
characters, no margin tabs, 10 cpi and a 7.5 inch right margin the length is
16 inches and the class is OVER. -/
theorem C3_line_metrics :
    (∀ (cc lm : Nat) (q : ℚ) (dw : Bool) (rm : ℚ), 0 < q →
      update_line_length_display cc lm (some q) dw (some rm) =
        ⟨specLength cc lm q dw,
         specFeasibility (rm - specLength cc lm q dw)⟩)
    ∧ update_line_length_display 80 0 (some 10) true (some (15 / 2)) =
        ⟨16, .OVER⟩ := by
  constructor
  · intro cc lm q dw rm hq
    simp only [update_line_length_display, specLength, specFeasibility,
      Option.getD_some, if_neg hq.ne']
  · norm_num [update_line_length_display]

/-- Witness for C3 at the spec example of 40 characters at 10 cpi. -/
theorem C3_line_metrics_witness :
    update_line_length_display 40 0 (some 10) false (some (15 / 2)) =
      ⟨specLength 40 0 10 false,
       specFeasibility (15 / 2 - specLength 40 0 10 false)⟩ :=
  C3_line_metrics.1 40 0 10 false (15 / 2) (by norm_num)

/-- C4 counterexample: a parsed cpi of zero is not computed as if it were 10;
the division guard yields length zero instead, so the zero case differs from
the substituted case. -/
theorem C4_cpi_guard_counterexample :
    ¬ update_line_length_display 10 0 (some 0) false (some (15 / 2)) =
        update_line_length_display 10 0 (some 10) false (some (15 / 2)) := by
  norm_num [update_line_length_display]

/-- C4 amended: only an unparsable cpi is substituted by 10; a parsed cpi of
zero instead hits the caught division and produces length zero, and the
computation never raises in either case. -/
theorem C4_cpi_guard_amended :
    (∀ (cc lm : Nat) (dw : Bool) (rm : Option ℚ),
      update_line_length_display cc lm none dw rm =
        update_line_length_display cc lm (some 10) dw rm)
    ∧ (∀ (cc lm : Nat) (dw : Bool) (rm : Option ℚ),
        (update_line_length_display cc lm (some 0) dw rm).lengthInches = 0) := by
  constructor
  · intro cc lm dw rm; rfl
  · intro cc lm dw rm; simp [update_line_length_display]

/-- C5 counterexample: with a negative parsed cpi the computed length is
negative, so the length is not nonnegative over every numeric cpi. -/
theorem C5_total_counterexample :
    ¬ 0 ≤ (update_line_length_display 10 0 (some (-10)) false
        (some (15 / 2))).lengthInches := by
  norm_num [update_line_length_display]

/-- C5 amended: the computation is total, and whenever the parsed cpi is
nonnegative or unparsable the returned length is nonnegative, a cpi of zero
contributing length zero through the caught division. -/
theorem C5_total_amended (cc lm : Nat) (cpiParse : Option ℚ) (dw : Bool)
    (rm : Option ℚ) (h : ∀ q, cpiParse = some q → 0 ≤ q) :
    0 ≤ (update_line_length_display cc lm cpiParse dw rm).lengthInches := by
  cases cpiParse with
  | none =>
    cases dw <;> simp [update_line_length_display] <;> positivity
  | some q =>
    have hq := h q rfl
    rcases eq_or_lt_of_le hq with h0 | hpos
    · simp [update_line_length_display, ← h0]
    · have hq2 : (0 : ℚ) < q / 2 := by linarith
      simp only [update_line_length_display, Option.getD_some,
        if_neg hpos.ne']
      cases dw <;> simp only [if_true, if_false, Bool.false_eq_true] <;>
        exact add_nonneg (div_nonneg (by positivity) hpos.le)
          (div_nonneg (Nat.cast_nonneg cc) (by linarith))

/-- Witness for C5 amended with an unparsable cpi. -/
theorem C5_total_witness :
    0 ≤ (update_line_length_display 10 0 none false
        (some (15 / 2))).lengthInches :=
  C5_total_amended 10 0 none false (some (15 / 2)) (fun _ hq => nomatch hq)

/-- C6: the Skip Over Perforation entry of the registry encodes parameter 0
as the fixed disable sequence and every parameter from 1 to 9 as the general
parametric sequence carrying the parameter byte twice; in particular
parameter 5 carries byte 5 twice. -/
theorem C6_skip_perforation :
    OKIDATA_COMMANDS "Skip Over Perforation" =
        some (.param skipOverPerforation)
    ∧ skipOverPerforation 0 = [0x1B, 0x25, 0x53, 0x30]
    ∧ (∀ n, 1 ≤ n → n ≤ 9 →
        skipOverPerforation n = [0x1B, 0x47, n, n]
        ∧ (skipOverPerforation n).count n = 2
        ∧ skipOverPerforation n ≠ skipOverPerforation 0)
    ∧ (skipOverPerforation 5).count 5 = 2 := by
  refine ⟨rfl, rfl, ?_, by decide⟩
  intro n h1 h9
  interval_cases n <;> exact ⟨rfl, by decide, by decide⟩

/-- Witness for C6 at parameter 5. -/
theorem C6_skip_perforation_witness :
    skipOverPerforation 5 = [0x1B, 0x47, 5, 5]
    ∧ (skipOverPerforation 5).count 5 = 2 :=
  have h := C6_skip_perforation.2.2.1 5 (by decide) (by decide)
  ⟨h.1, h.2.1⟩

/-- C7: flipping the double-wide checkbox on sends exactly the dedicated
Double Width On command, the single byte 31; flipping it off sends no Double
Width Off command but runs the CPI handler, which re-issues the Select entry
of the currently stored cpi value. -/
theorem C7_double_wide (s : EditorState) :
    (s.double_wide = true → toggle_double_wide s = [[0x1F]])
    ∧ (s.double_wide = false →
        toggle_double_wide s = apply_cpi s
        ∧ (s.cpi_var ∈ cpiChoices →
            toggle_double_wide s = [selectCpiBytes s.cpi_var]
            ∧ okidataGetBytes "Double Width Off" ∉ toggle_double_wide s)) := by
  constructor
  · intro h
    simp only [toggle_double_wide, h, if_true]
    decide
  · intro h
    have hcpi : toggle_double_wide s = apply_cpi s := by
      simp [toggle_double_wide, h]
    refine ⟨hcpi, fun hm => ⟨hcpi.trans (apply_cpi_of_mem s hm), ?_⟩⟩
    rw [hcpi, apply_cpi_of_mem s hm]
    simp only [cpiChoices, List.mem_cons, List.not_mem_nil, or_false] at hm
    rcases hm with hm | hm | hm | hm | hm <;>
      simp only [selectCpiBytes, hm] <;> decide

/-- Witness for C7: enabling from the initial state sends the single byte 31
and disabling at the stored 10 cpi setting re-sends the 10 cpi select byte. -/
theorem C7_double_wide_witness :
    toggle_double_wide { defaultState with double_wide := true } = [[0x1F]]
    ∧ toggle_double_wide defaultState = [[0x1E]] := by
  refine ⟨(C7_double_wide { defaultState with double_wide := true }).1 rfl, ?_⟩
  have h := ((C7_double_wide defaultState).2 rfl).2 (by decide)
  exact h.1.trans (by decide)

/-- C8: a name absent from the registry resolves to empty bytes and the
manual-command handler performs no transmission and raises nothing. -/
theorem C8_unknown_command (name : String)
    (h : OKIDATA_COMMANDS name = none) :
    okidataGetBytes name = [] ∧ send_manual_command name = some [] := by
  constructor
  · simp [okidataGetBytes, h]
  · simp [send_manual_command, h]

/-- Witness for C8 at a name the registry does not hold. -/
theorem C8_unknown_command_witness :
    okidataGetBytes "No Such Command" = []
    ∧ send_manual_command "No Such Command" = some [] :=
  C8_unknown_command "No Such Command" rfl

/-- C9: the off entries for underline and unidirectional printing hold the
identical bytes 27 45 0, just as the off entries for emphasized and enhanced
printing both hold 27 73, so disabling unidirectional printing emits the same
bytes as disabling underline printing. -/
theorem C9_shared_off_bytes :
    okidataGetBytes "Underline Printing Off" = [0x1B, 0x2D, 0x00]
    ∧ okidataGetBytes "Unidirectional Printing Off" = [0x1B, 0x2D, 0x00]
    ∧ okidataGetBytes "Emphasized Printing Off" = [0x1B, 0x49]
    ∧ okidataGetBytes "Enhanced Printing Off" = [0x1B, 0x49]
    ∧ apply_unidirectional defaultState = apply_underline defaultState := by
  refine ⟨rfl, rfl, rfl, rfl, ?_⟩
  decide

/-- C10: with debug mode on, every transmission attempt logs the decimal byte
line first, before the port value is examined and before any connection
outcome, so an aborted or failed transmission still carries its log entry. -/
theorem C10_debug_log_first (portParse : Option Nat) (transportOk : Bool)
    (bs : List Nat) (tag : String) :
    (send_command_immediately true portParse transportOk bs tag).head? =
        some (SendEvent.debugLog tag (dec_str bs))
    ∧ (send_live_command true portParse transportOk bs).head? =
        some (SendEvent.debugLog "[Live Keystroke]" (dec_str bs)) := by
  cases portParse <;> cases transportOk <;>
    simp [send_command_immediately, send_live_command]

end Okidata
